import Mathlib

/-!
Verification development for the process-events connector repository.

The Rust sources under `src/` are embedded shallowly: pure functions become
Lean functions on `Nat`, byte buffers become functions `Nat → Nat` (byte at
offset), the classic-BPF socket filter becomes an instruction table plus a
small fuel-indexed interpreter, and the fallible construction pipeline
becomes a function from an outcome environment to an `Except` value plus a
trace of the socket actions performed.
-/

/- ## Kernel ABI constants and layout

The repository generates its kernel bindings at build time (`build.rs` runs
bindgen over `cnproc_wrapper.h`); the generated `cnproc_bindings.rs` is not
part of the checked-in sources.  The constants and struct offsets below are
therefore modelled, as the spec requires, from the kernel wire ABI that the
spec declares "bit-exact, kernel ABI, not under this system's control but
must be reproduced exactly".
-/

/-- Modelled from the spec: netlink alignment boundary (`NLMSG_ALIGNTO`,
`linux/netlink.h`); the spec fixes the alignment boundary at 4 bytes. -/
def NLMSG_ALIGNTO : Nat := 4

/-- Modelled from the spec: the "single/last segment" message-type marker
(`NLMSG_DONE`, `linux/netlink.h`), value 3 in the kernel ABI. -/
def NLMSG_DONE : Nat := 3

/-- Modelled from the spec: process-subsystem classifier index
(`CN_IDX_PROC`, `linux/connector.h`), value 1 in the kernel ABI. -/
def CN_IDX_PROC : Nat := 1

/-- Modelled from the spec: process-subsystem classifier value
(`CN_VAL_PROC`, `linux/connector.h`), value 1 in the kernel ABI. -/
def CN_VAL_PROC : Nat := 1

/-- Modelled from the spec: "process started" event kind
(`PROC_EVENT_EXEC`, `linux/cn_proc.h`), value 2 in the kernel ABI; the
bindgen name used by the sources is `PROCESS_EVENT_EXEC`. -/
def PROCESS_EVENT_EXEC : Nat := 2

/-- Modelled from the spec: "process ended" event kind
(`PROC_EVENT_EXIT`, `linux/cn_proc.h`), value 0x80000000 in the kernel ABI;
the bindgen name used by the sources is `PROCESS_EVENT_EXIT`. -/
def PROCESS_EVENT_EXIT : Nat := 2147483648

/-- Modelled from the spec: the "start listening" subscription operation
(`PROC_CN_MCAST_LISTEN`, `linux/cn_proc.h`), value 1 in the kernel ABI. -/
def PROC_CN_MCAST_LISTEN : Nat := 1

/-- Modelled from the spec: the "stop listening" subscription operation
(`PROC_CN_MCAST_IGNORE`, `linux/cn_proc.h`), value 2 in the kernel ABI. -/
def PROC_CN_MCAST_IGNORE : Nat := 2

/- Classic BPF opcode fields (`linux/bpf_common.h`), modelled from the
spec's requirement that the filter instruction encoding be the kernel's. -/

/-- Modelled from the spec: BPF instruction class `BPF_LD` (0x00). -/
def BPF_LD : Nat := 0
/-- Modelled from the spec: BPF instruction class `BPF_LDX` (0x01). -/
def BPF_LDX : Nat := 1
/-- Modelled from the spec: BPF instruction class `BPF_ST` (0x02). -/
def BPF_ST : Nat := 2
/-- Modelled from the spec: BPF instruction class `BPF_JMP` (0x05). -/
def BPF_JMP : Nat := 5
/-- Modelled from the spec: BPF instruction class `BPF_RET` (0x06). -/
def BPF_RET : Nat := 6
/-- Modelled from the spec: BPF operand size `BPF_W` (32-bit word, 0x00). -/
def BPF_W : Nat := 0
/-- Modelled from the spec: BPF operand size `BPF_H` (16-bit half, 0x08). -/
def BPF_H : Nat := 8
/-- Modelled from the spec: BPF addressing mode `BPF_ABS` (0x20). -/
def BPF_ABS : Nat := 32
/-- Modelled from the spec: BPF addressing mode `BPF_MEM` (0x60). -/
def BPF_MEM : Nat := 96
/-- Modelled from the spec: BPF jump kind `BPF_JEQ` (0x10). -/
def BPF_JEQ : Nat := 16
/-- Modelled from the spec: BPF source `BPF_K` (immediate, 0x00). -/
def BPF_K : Nat := 0
/-- Modelled from the spec: BPF source `BPF_X` (index register, 0x08). -/
def BPF_X : Nat := 8

/- Struct layout (x86-64, the target the sources assume).  `nlmsghdr` is
{len u32 @0, type u16 @4, flags u16 @6, seq u32 @8, pid u32 @12}, 16 bytes;
`cb_id` is {idx u32 @0, val u32 @4}; `cn_msg` is {id @0, seq @8, ack @12,
len u16 @16, flags u16 @18, data @20}, 20 bytes; `proc_event` is
{what u32 @0, cpu u32 @4, timestamp u64 @8, event_data @16}; the exec and
exit event records both put process_pid at 0 and process_tgid at 4. -/

/-- Modelled from the spec: `size_of::<nlmsghdr>()` on the target, 16. -/
def sizeof_nlmsghdr : Nat := 16
/-- Modelled from the spec: `offset_of!(nlmsghdr, nlmsg_type)`, 4. -/
def offset_nlmsghdr_nlmsg_type : Nat := 4
/-- Modelled from the spec: `offset_of!(nlmsghdr, nlmsg_pid)`, 12. -/
def offset_nlmsghdr_nlmsg_pid : Nat := 12
/-- Modelled from the spec: `offset_of!(cn_msg, id)`, 0. -/
def offset_cn_msg_id : Nat := 0
/-- Modelled from the spec: `offset_of!(cb_id, idx)`, 0. -/
def offset_cb_id_idx : Nat := 0
/-- Modelled from the spec: `offset_of!(cb_id, val)`, 4. -/
def offset_cb_id_val : Nat := 4
/-- Modelled from the spec: `offset_of!(cn_msg, len)`, 16. -/
def offset_cn_msg_len : Nat := 16
/-- Modelled from the spec: `offset_of!(cn_msg, data)`, 20. -/
def offset_cn_msg_data : Nat := 20
/-- Modelled from the spec: `offset_of!(proc_event, what)`, 0. -/
def offset_proc_event_what : Nat := 0
/-- Modelled from the spec: `offset_of!(proc_event, event_data)`, 16. -/
def offset_proc_event_event_data : Nat := 16
/-- Modelled from the spec: `offset_of!(exec/exit event, process_pid)`, 0. -/
def offset_event_process_pid : Nat := 0
/-- Modelled from the spec: `offset_of!(exec/exit event, process_tgid)`, 4. -/
def offset_event_process_tgid : Nat := 4
/-- Modelled from the spec: `size_of::<cn_msg>()` on the target, 20. -/
def sizeof_cn_msg : Nat := 20
/-- Modelled from the spec: `size_of::<proc_cn_mcast_op>()` (a C enum), 4. -/
def sizeof_proc_cn_mcast_op : Nat := 4

/- ## Protocol codec: length computation (src/io/connector/cnproc.rs) -/

/-- Embeds `nlmsg_align` from `cnproc.rs`:
`(len + NLMSG_ALIGNTO - 1) & !(NLMSG_ALIGNTO - 1)` on a 64-bit `usize`;
the complement of 3 as a 64-bit mask is `2^64 - NLMSG_ALIGNTO`. -/
def nlmsg_align (len : Nat) : Nat :=
  (len + (NLMSG_ALIGNTO - 1)) &&& (2 ^ 64 - NLMSG_ALIGNTO)

/-- Embeds `nlmsg_hdrlen` from `cnproc.rs`: the aligned netlink header
size, `nlmsg_align(size_of::<nlmsghdr>())`. -/
def nlmsg_hdrlen : Nat := nlmsg_align sizeof_nlmsghdr

/-- Embeds `nlmsg_length` from `cnproc.rs`: a netlink message length
taking into account its header size, `len + nlmsg_hdrlen()`. -/
def nlmsg_length (len : Nat) : Nat := len + nlmsg_hdrlen

/- ## Byte-order helpers

The sources run on a little-endian target, where `u32::to_be` and
`u16::to_be` byte-swap their argument (the Rust `htonl`/`htons`
equivalents used when embedding constants into the filter). -/

/-- Byte `i` (little-endian order) of the value `v`. -/
def byteOfLE (v i : Nat) : Nat := v / 2 ^ (8 * i) % 256

/-- 32-bit byte swap: the little-endian bytes of `v` reassembled in
big-endian order. -/
def bswap32 (v : Nat) : Nat :=
  v % 256 * 16777216 + v / 256 % 256 * 65536 + v / 65536 % 256 * 256 +
    v / 16777216 % 256

/-- Embeds `c_uint::to_be` on the little-endian target: a 32-bit byte
swap. -/
def u32_to_be (v : Nat) : Nat := bswap32 (v % 4294967296)

/-- Embeds `c_ushort::to_be` on the little-endian target: a 16-bit byte
swap. -/
def u16_to_be (v : Nat) : Nat := v % 256 * 256 + v / 256 % 256

/- ## Theorems for claim C2 -/

/-- C2 counterexample: the claim says the computed total
(`nlmsg_length`) "rounds up to the next multiple of 4 — never down, and
never equal to the unaligned sum" whenever the unaligned header+payload
sum is not a multiple of 4.  For payload size 1 the unaligned sum is
16 + 1 = 17, not a multiple of 4, yet `nlmsg_length 1 = 17`: exactly the
unaligned sum, and itself not a multiple of 4. -/
theorem nlmsg_length_payload_not_rounded :
    nlmsg_length 1 = sizeof_nlmsghdr + 1 ∧ (sizeof_nlmsghdr + 1) % 4 = 1 ∧
      nlmsg_length 1 % 4 ≠ 0 := by
  decide

/-- C2 (amended): for payload size 0 the computed total length equals the
bare header size (16, itself 4-byte aligned); in general `nlmsg_length`
adds the raw payload size to the aligned header size — the 4-byte
round-up (`nlmsg_align`) is applied to the header size only, so the total
is a multiple of 4 exactly when the payload size is, and an unaligned
payload is not rounded. -/
theorem nlmsg_length_spec :
    nlmsg_length 0 = sizeof_nlmsghdr ∧
      nlmsg_align sizeof_nlmsghdr = sizeof_nlmsghdr ∧
      ∀ len : Nat, nlmsg_length len = len + sizeof_nlmsghdr := by
  refine ⟨by decide, by decide, ?_⟩
  intro len
  have h : nlmsg_hdrlen = sizeof_nlmsghdr := by decide
  simp [nlmsg_length, h]

/-- Closed instance of `nlmsg_length_spec` at payload size 8, matching the
repository's own unit test value `nlmsg_length(8) == 24`. -/
theorem nlmsg_length_spec_witness : nlmsg_length 8 = 8 + sizeof_nlmsghdr :=
  nlmsg_length_spec.2.2 8

/- ## Filter Program Builder (src/io/connector.rs, install_filter) -/

/-- Embeds the kernel `sock_filter` instruction: opcode, true-branch skip,
false-branch skip, immediate constant. -/
structure sock_filter where
  code : Nat
  jt : Nat
  jf : Nat
  k : Nat
deriving DecidableEq

/-- Embeds the `bpf_stmt!` macro from `cnproc.rs`: a statement rule with
both branch skips zero. -/
def bpf_stmt (code k : Nat) : sock_filter :=
  { code := code, jt := 0, jf := 0, k := k }

/-- Embeds the `bpf_jump!` macro from `cnproc.rs`: a jump rule. -/
def bpf_jump (code k jt jf : Nat) : sock_filter :=
  { code := code, jt := jt, jf := jf, k := k }

/-- The instruction array built by
`ProcessEventsConnector::install_filter`, indexed 0..28; entries follow
the source lines one for one. -/
def procFilter : Nat → Option sock_filter
  -- Check message from kernel.
  | 0 => some (bpf_stmt (BPF_LD ||| BPF_W ||| BPF_ABS) offset_nlmsghdr_nlmsg_pid)
  | 1 => some (bpf_jump (BPF_JMP ||| BPF_JEQ ||| BPF_K) 0 1 0)
  | 2 => some (bpf_stmt (BPF_RET ||| BPF_K) 0)
  -- Check message type NLMSG_DONE.
  | 3 => some (bpf_stmt (BPF_LD ||| BPF_H ||| BPF_ABS) offset_nlmsghdr_nlmsg_type)
  | 4 => some (bpf_jump (BPF_JMP ||| BPF_JEQ ||| BPF_K) (u16_to_be NLMSG_DONE) 1 0)
  | 5 => some (bpf_stmt (BPF_RET ||| BPF_K) 0)
  -- Check proc connector event CN_IDX_PROC.
  | 6 => some (bpf_stmt (BPF_LD ||| BPF_W ||| BPF_ABS)
      (nlmsg_length 0 + offset_cn_msg_id + offset_cb_id_idx))
  | 7 => some (bpf_jump (BPF_JMP ||| BPF_JEQ ||| BPF_K) (u32_to_be CN_IDX_PROC) 1 0)
  | 8 => some (bpf_stmt (BPF_RET ||| BPF_K) 0)
  -- Check proc connector event CN_VAL_PROC.
  | 9 => some (bpf_stmt (BPF_LD ||| BPF_W ||| BPF_ABS)
      (nlmsg_length 0 + offset_cn_msg_id + offset_cb_id_val))
  | 10 => some (bpf_jump (BPF_JMP ||| BPF_JEQ ||| BPF_K) (u32_to_be CN_VAL_PROC) 1 0)
  | 11 => some (bpf_stmt (BPF_RET ||| BPF_K) 0)
  -- Accept exec messages from processes.
  | 12 => some (bpf_stmt (BPF_LD ||| BPF_W ||| BPF_ABS)
      (nlmsg_length 0 + offset_cn_msg_data + offset_proc_event_what))
  | 13 => some (bpf_jump (BPF_JMP ||| BPF_JEQ ||| BPF_K) (u32_to_be PROCESS_EVENT_EXEC) 0 6)
  -- Processes have process_pid == process_tgid (thread group leaders).
  | 14 => some (bpf_stmt (BPF_LD ||| BPF_W ||| BPF_ABS)
      (nlmsg_length 0 + offset_cn_msg_data + offset_proc_event_event_data +
        offset_event_process_pid))
  | 15 => some (bpf_stmt BPF_ST 0)
  | 16 => some (bpf_stmt (BPF_LDX ||| BPF_W ||| BPF_MEM) 0)
  | 17 => some (bpf_stmt (BPF_LD ||| BPF_W ||| BPF_ABS)
      (nlmsg_length 0 + offset_cn_msg_data + offset_proc_event_event_data +
        offset_event_process_tgid))
  | 18 => some (bpf_jump (BPF_JMP ||| BPF_JEQ ||| BPF_X) 0 0 9)
  | 19 => some (bpf_stmt (BPF_RET ||| BPF_K) 4294967295)
  -- Accept exit messages from processes.
  | 20 => some (bpf_stmt (BPF_LD ||| BPF_W ||| BPF_ABS)
      (nlmsg_length 0 + offset_cn_msg_data + offset_proc_event_what))
  | 21 => some (bpf_jump (BPF_JMP ||| BPF_JEQ ||| BPF_K) (u32_to_be PROCESS_EVENT_EXIT) 0 6)
  -- Processes have process_pid == process_tgid
  | 22 => some (bpf_stmt (BPF_LD ||| BPF_W ||| BPF_ABS)
      (nlmsg_length 0 + offset_cn_msg_data + offset_proc_event_event_data +
        offset_event_process_pid))
  | 23 => some (bpf_stmt BPF_ST 0)
  | 24 => some (bpf_stmt (BPF_LDX ||| BPF_W ||| BPF_MEM) 0)
  | 25 => some (bpf_stmt (BPF_LD ||| BPF_W ||| BPF_ABS)
      (nlmsg_length 0 + offset_cn_msg_data + offset_proc_event_event_data +
        offset_event_process_tgid))
  | 26 => some (bpf_jump (BPF_JMP ||| BPF_JEQ ||| BPF_X) 0 0 1)
  | 27 => some (bpf_stmt (BPF_RET ||| BPF_K) 4294967295)
  -- Drop any other messages.
  | 28 => some (bpf_stmt (BPF_RET ||| BPF_K) 0)
  | _ => none

/-- The filter program length (`filter.len()` in the source, 29). -/
def procFilterLen : Nat := 29

/- ## Classic BPF interpreter (kernel evaluation semantics)

Absolute loads read packet bytes in network byte order, as the kernel's
classic-BPF `BPF_LD|BPF_ABS` does. -/

/-- Big-endian 32-bit load from a byte buffer. -/
def loadW (pkt : Nat → Nat) (off : Nat) : Nat :=
  pkt off * 16777216 + pkt (off + 1) * 65536 + pkt (off + 2) * 256 +
    pkt (off + 3)

/-- Big-endian 16-bit load from a byte buffer. -/
def loadH (pkt : Nat → Nat) (off : Nat) : Nat :=
  pkt off * 256 + pkt (off + 1)

/-- Fuel-indexed classic-BPF interpreter over the opcodes the filter
uses: absolute word/half loads, scratch store/load, compare-and-branch
against a constant or the index register, and return.  State is the
program counter, accumulator `a`, index register `x`, and scratch memory
`m`; `none` means fuel ran out, the program counter left the program, or
an opcode outside the modelled set was hit. -/
def bpfRun (pkt : Nat → Nat) (prog : Nat → Option sock_filter) :
    Nat → Nat → Nat → Nat → (Nat → Nat) → Option Nat
  | 0, _, _, _, _ => none
  | fuel + 1, pc, a, x, m =>
    match prog pc with
    | none => none
    | some i =>
      if i.code = BPF_LD ||| BPF_W ||| BPF_ABS then
        bpfRun pkt prog fuel (pc + 1) (loadW pkt i.k) x m
      else if i.code = BPF_LD ||| BPF_H ||| BPF_ABS then
        bpfRun pkt prog fuel (pc + 1) (loadH pkt i.k) x m
      else if i.code = BPF_ST then
        bpfRun pkt prog fuel (pc + 1) a x (fun j => if j = i.k then a else m j)
      else if i.code = BPF_LDX ||| BPF_W ||| BPF_MEM then
        bpfRun pkt prog fuel (pc + 1) a (m i.k) m
      else if i.code = BPF_JMP ||| BPF_JEQ ||| BPF_K then
        bpfRun pkt prog fuel (pc + 1 + (if a = i.k then i.jt else i.jf)) a x m
      else if i.code = BPF_JMP ||| BPF_JEQ ||| BPF_X then
        bpfRun pkt prog fuel (pc + 1 + (if a = x then i.jt else i.jf)) a x m
      else if i.code = BPF_RET ||| BPF_K then
        some i.k
      else none

/-- Running the installed filter on a packet: start at instruction 0 with
cleared registers and scratch, fuel equal to the program length (ample,
since all jumps are forward).  `some 4294967295` is the accept decision
(`0xffffffff`, accept the whole packet); `some 0` is reject. -/
def runFilter (pkt : Nat → Nat) : Option Nat :=
  bpfRun pkt procFilter procFilterLen 0 0 0 (fun _ => 0)

/- ## Theorems for claim C4 -/

/-- C4: in the filter program built by `install_filter`, every branch
instruction (BPF class `BPF_JMP`, i.e. `code &&& 7 = 5`) has both its
true and false forward-skips land strictly inside the program: the skip
added to the instruction's own index plus one is a valid index below the
program length. -/
theorem procFilter_branch_targets_in_bounds :
    ∀ i, i < procFilterLen → ∀ s, procFilter i = some s →
      s.code &&& 7 = BPF_JMP →
        i + 1 + s.jt < procFilterLen ∧ i + 1 + s.jf < procFilterLen := by
  decide

/-- Closed instance of `procFilter_branch_targets_in_bounds` at the exec
kind-test branch (index 13, skips 0 and 6). -/
theorem procFilter_branch_targets_in_bounds_witness :
    13 + 1 + 0 < procFilterLen ∧ 13 + 1 + 6 < procFilterLen :=
  procFilter_branch_targets_in_bounds 13 (by decide)
    (bpf_jump (BPF_JMP ||| BPF_JEQ ||| BPF_K) (u32_to_be PROCESS_EVENT_EXEC) 0 6)
    (by decide) (by decide)

/- ## Synthetic event datagrams

A synthetic process-event record, as the kernel would deliver it on this
channel: kernel-originated (`nlmsg_pid` 0), a single `NLMSG_DONE`
segment, process-connector classifier pair `(CN_IDX_PROC, CN_VAL_PROC)`,
event kind `what`, and the reported process id and thread-group id.  All
multi-byte fields are little-endian (host order on the target); bytes not
listed are zero. -/

/-- Byte `off` of a synthetic event datagram with kind `what`, process id
`pid` and thread-group id `tgid`. -/
def eventPacket (what pid tgid : Nat) : Nat → Nat := fun off =>
  if off = offset_nlmsghdr_nlmsg_type then NLMSG_DONE
  else if off = nlmsg_length 0 + offset_cn_msg_id + offset_cb_id_idx then CN_IDX_PROC
  else if off = nlmsg_length 0 + offset_cn_msg_id + offset_cb_id_val then CN_VAL_PROC
  else if nlmsg_length 0 + offset_cn_msg_data + offset_proc_event_what ≤ off ∧
      off < nlmsg_length 0 + offset_cn_msg_data + offset_proc_event_what + 4 then
    byteOfLE what (off - (nlmsg_length 0 + offset_cn_msg_data + offset_proc_event_what))
  else if nlmsg_length 0 + offset_cn_msg_data + offset_proc_event_event_data +
      offset_event_process_pid ≤ off ∧
      off < nlmsg_length 0 + offset_cn_msg_data + offset_proc_event_event_data +
        offset_event_process_pid + 4 then
    byteOfLE pid (off - (nlmsg_length 0 + offset_cn_msg_data +
      offset_proc_event_event_data + offset_event_process_pid))
  else if nlmsg_length 0 + offset_cn_msg_data + offset_proc_event_event_data +
      offset_event_process_tgid ≤ off ∧
      off < nlmsg_length 0 + offset_cn_msg_data + offset_proc_event_event_data +
        offset_event_process_tgid + 4 then
    byteOfLE tgid (off - (nlmsg_length 0 + offset_cn_msg_data +
      offset_proc_event_event_data + offset_event_process_tgid))
  else 0

/-- The aligned netlink header length evaluates to 16 (matching the
repository's own unit test `nlmsg_length(0) == 16`). -/
lemma nlmsg_length_zero : nlmsg_length 0 = 16 := by decide

/- Helper evaluation lemmas for the filter's loads on a synthetic
packet. -/

lemma eventPacket_loadW_nlmsg_pid (what pid tgid : Nat) :
    loadW (eventPacket what pid tgid) 12 = 0 := by
  simp [loadW, eventPacket, nlmsg_length_zero, offset_nlmsghdr_nlmsg_type,
    offset_cn_msg_id, offset_cb_id_idx, offset_cb_id_val,
    offset_cn_msg_data, offset_proc_event_what,
    offset_proc_event_event_data, offset_event_process_pid,
    offset_event_process_tgid]

lemma eventPacket_loadH_nlmsg_type (what pid tgid : Nat) :
    loadH (eventPacket what pid tgid) 4 = 768 := by
  simp [loadH, eventPacket, nlmsg_length_zero, offset_nlmsghdr_nlmsg_type,
    offset_cn_msg_id, offset_cb_id_idx, offset_cb_id_val,
    offset_cn_msg_data, offset_proc_event_what,
    offset_proc_event_event_data, offset_event_process_pid,
    offset_event_process_tgid, NLMSG_DONE]

lemma eventPacket_loadW_idx (what pid tgid : Nat) :
    loadW (eventPacket what pid tgid) 16 = 16777216 := by
  simp [loadW, eventPacket, nlmsg_length_zero, offset_nlmsghdr_nlmsg_type,
    offset_cn_msg_id, offset_cb_id_idx, offset_cb_id_val,
    offset_cn_msg_data, offset_proc_event_what,
    offset_proc_event_event_data, offset_event_process_pid,
    offset_event_process_tgid, CN_IDX_PROC]

lemma eventPacket_loadW_val (what pid tgid : Nat) :
    loadW (eventPacket what pid tgid) 20 = 16777216 := by
  simp [loadW, eventPacket, nlmsg_length_zero, offset_nlmsghdr_nlmsg_type,
    offset_cn_msg_id, offset_cb_id_idx, offset_cb_id_val,
    offset_cn_msg_data, offset_proc_event_what,
    offset_proc_event_event_data, offset_event_process_pid,
    offset_event_process_tgid, CN_VAL_PROC]

lemma eventPacket_loadW_what (what pid tgid : Nat) :
    loadW (eventPacket what pid tgid) 36 = bswap32 what := by
  simp [loadW, eventPacket, bswap32, byteOfLE, nlmsg_length_zero,
    offset_nlmsghdr_nlmsg_type, offset_cn_msg_id, offset_cb_id_idx,
    offset_cb_id_val, offset_cn_msg_data, offset_proc_event_what,
    offset_proc_event_event_data, offset_event_process_pid,
    offset_event_process_tgid]

lemma eventPacket_loadW_pid (what pid tgid : Nat) :
    loadW (eventPacket what pid tgid) 52 = bswap32 pid := by
  simp [loadW, eventPacket, bswap32, byteOfLE, nlmsg_length_zero,
    offset_nlmsghdr_nlmsg_type, offset_cn_msg_id, offset_cb_id_idx,
    offset_cb_id_val, offset_cn_msg_data, offset_proc_event_what,
    offset_proc_event_event_data, offset_event_process_pid,
    offset_event_process_tgid]

lemma eventPacket_loadW_tgid (what pid tgid : Nat) :
    loadW (eventPacket what pid tgid) 56 = bswap32 tgid := by
  simp [loadW, eventPacket, bswap32, byteOfLE, nlmsg_length_zero,
    offset_nlmsghdr_nlmsg_type, offset_cn_msg_id, offset_cb_id_idx,
    offset_cb_id_val, offset_cn_msg_data, offset_proc_event_what,
    offset_proc_event_event_data, offset_event_process_pid,
    offset_event_process_tgid]

/- Opcode and constant evaluation lemmas used to run the interpreter
symbolically. -/

lemma bpf_code_ld_w_abs : BPF_LD ||| BPF_W ||| BPF_ABS = 32 := by decide
lemma bpf_code_ld_h_abs : BPF_LD ||| BPF_H ||| BPF_ABS = 40 := by decide
lemma bpf_code_ldx_w_mem : BPF_LDX ||| BPF_W ||| BPF_MEM = 97 := by decide
lemma bpf_code_jmp_jeq_k : BPF_JMP ||| BPF_JEQ ||| BPF_K = 21 := by decide
lemma bpf_code_jmp_jeq_x : BPF_JMP ||| BPF_JEQ ||| BPF_X = 29 := by decide
lemma bpf_code_ret_k : BPF_RET ||| BPF_K = 6 := by decide
lemma u16_to_be_done : u16_to_be NLMSG_DONE = 768 := by decide
lemma u32_to_be_idx : u32_to_be CN_IDX_PROC = 16777216 := by decide
lemma u32_to_be_val : u32_to_be CN_VAL_PROC = 16777216 := by decide
lemma u32_to_be_exec : u32_to_be PROCESS_EVENT_EXEC = 33554432 := by decide
lemma u32_to_be_exit : u32_to_be PROCESS_EVENT_EXIT = 128 := by decide
lemma bswap32_exec : bswap32 PROCESS_EVENT_EXEC = 33554432 := by decide
lemma bswap32_exit : bswap32 PROCESS_EVENT_EXIT = 128 := by decide

/- Byte-swap injectivity, used to relate the filter's big-endian loads to
the little-endian field values. -/

lemma bytes_inj (a0 a1 a2 a3 b0 b1 b2 b3 : Nat)
    (ha1 : a1 < 256) (ha2 : a2 < 256) (ha3 : a3 < 256)
    (hb1 : b1 < 256) (hb2 : b2 < 256) (hb3 : b3 < 256)
    (h : a0 * 16777216 + a1 * 65536 + a2 * 256 + a3 =
      b0 * 16777216 + b1 * 65536 + b2 * 256 + b3) :
    a0 = b0 ∧ a1 = b1 ∧ a2 = b2 ∧ a3 = b3 := by
  omega

lemma bswap32_inj (p t : Nat) (hp : p < 4294967296) (ht : t < 4294967296)
    (h : bswap32 p = bswap32 t) : p = t := by
  unfold bswap32 at h
  obtain ⟨h0, h1, h2, h3⟩ :=
    bytes_inj _ _ _ _ _ _ _ _
      (Nat.mod_lt _ (by omega)) (Nat.mod_lt _ (by omega))
      (Nat.mod_lt _ (by omega)) (Nat.mod_lt _ (by omega))
      (Nat.mod_lt _ (by omega)) (Nat.mod_lt _ (by omega)) h
  omega

/-- Running the installed filter on a synthetic event datagram: the
decision is accept exactly when the kind is exec or exit and the loaded
process-id word equals the loaded thread-group-id word; otherwise
reject. -/
lemma runFilter_eventPacket (w p t : Nat) (hw : w < 4294967296) :
    runFilter (eventPacket w p t) =
      if (w = PROCESS_EVENT_EXEC ∨ w = PROCESS_EVENT_EXIT) ∧
          bswap32 p = bswap32 t then
        some 4294967295
      else some 0 := by
  by_cases hw2 : w = PROCESS_EVENT_EXEC
  · subst hw2
    by_cases hpt : bswap32 p = bswap32 t
    · have hpt' : bswap32 t = bswap32 p := hpt.symm
      simp only [runFilter, procFilterLen]
      iterate
        (unfold bpfRun;
         simp [procFilter, bpf_stmt, bpf_jump, bpf_code_ld_w_abs,
           bpf_code_ld_h_abs, bpf_code_ldx_w_mem, bpf_code_jmp_jeq_k,
           bpf_code_jmp_jeq_x, bpf_code_ret_k, BPF_ST, u16_to_be_done,
           u32_to_be_idx, u32_to_be_val, u32_to_be_exec, u32_to_be_exit,
           nlmsg_length_zero, offset_nlmsghdr_nlmsg_pid,
           offset_nlmsghdr_nlmsg_type, offset_cn_msg_id, offset_cb_id_idx,
           offset_cb_id_val, offset_cn_msg_data, offset_proc_event_what,
           offset_proc_event_event_data, offset_event_process_pid,
           offset_event_process_tgid, eventPacket_loadW_nlmsg_pid,
           eventPacket_loadH_nlmsg_type, eventPacket_loadW_idx,
           eventPacket_loadW_val, eventPacket_loadW_what,
           eventPacket_loadW_pid, eventPacket_loadW_tgid, bswap32_exec,
           bswap32_exit, hpt'])
    · have hpt' : ¬ bswap32 t = bswap32 p := fun h => hpt h.symm
      simp only [runFilter, procFilterLen]
      iterate
        (unfold bpfRun;
         simp [procFilter, bpf_stmt, bpf_jump, bpf_code_ld_w_abs,
           bpf_code_ld_h_abs, bpf_code_ldx_w_mem, bpf_code_jmp_jeq_k,
           bpf_code_jmp_jeq_x, bpf_code_ret_k, BPF_ST, u16_to_be_done,
           u32_to_be_idx, u32_to_be_val, u32_to_be_exec, u32_to_be_exit,
           nlmsg_length_zero, offset_nlmsghdr_nlmsg_pid,
           offset_nlmsghdr_nlmsg_type, offset_cn_msg_id, offset_cb_id_idx,
           offset_cb_id_val, offset_cn_msg_data, offset_proc_event_what,
           offset_proc_event_event_data, offset_event_process_pid,
           offset_event_process_tgid, eventPacket_loadW_nlmsg_pid,
           eventPacket_loadH_nlmsg_type, eventPacket_loadW_idx,
           eventPacket_loadW_val, eventPacket_loadW_what,
           eventPacket_loadW_pid, eventPacket_loadW_tgid, bswap32_exec,
           bswap32_exit, hpt, hpt'])
  · by_cases hw8 : w = PROCESS_EVENT_EXIT
    · subst hw8
      by_cases hpt : bswap32 p = bswap32 t
      · have hpt' : bswap32 t = bswap32 p := hpt.symm
        simp only [runFilter, procFilterLen]
        iterate
          (unfold bpfRun;
           simp [procFilter, bpf_stmt, bpf_jump, bpf_code_ld_w_abs,
             bpf_code_ld_h_abs, bpf_code_ldx_w_mem, bpf_code_jmp_jeq_k,
             bpf_code_jmp_jeq_x, bpf_code_ret_k, BPF_ST, u16_to_be_done,
             u32_to_be_idx, u32_to_be_val, u32_to_be_exec, u32_to_be_exit,
             nlmsg_length_zero, offset_nlmsghdr_nlmsg_pid,
             offset_nlmsghdr_nlmsg_type, offset_cn_msg_id, offset_cb_id_idx,
             offset_cb_id_val, offset_cn_msg_data, offset_proc_event_what,
             offset_proc_event_event_data, offset_event_process_pid,
             offset_event_process_tgid, eventPacket_loadW_nlmsg_pid,
             eventPacket_loadH_nlmsg_type, eventPacket_loadW_idx,
             eventPacket_loadW_val, eventPacket_loadW_what,
             eventPacket_loadW_pid, eventPacket_loadW_tgid, bswap32_exec,
             bswap32_exit, hpt'])
      · have hpt' : ¬ bswap32 t = bswap32 p := fun h => hpt h.symm
        simp only [runFilter, procFilterLen]
        iterate
          (unfold bpfRun;
           simp [procFilter, bpf_stmt, bpf_jump, bpf_code_ld_w_abs,
             bpf_code_ld_h_abs, bpf_code_ldx_w_mem, bpf_code_jmp_jeq_k,
             bpf_code_jmp_jeq_x, bpf_code_ret_k, BPF_ST, u16_to_be_done,
             u32_to_be_idx, u32_to_be_val, u32_to_be_exec, u32_to_be_exit,
             nlmsg_length_zero, offset_nlmsghdr_nlmsg_pid,
             offset_nlmsghdr_nlmsg_type, offset_cn_msg_id, offset_cb_id_idx,
             offset_cb_id_val, offset_cn_msg_data, offset_proc_event_what,
             offset_proc_event_event_data, offset_event_process_pid,
             offset_event_process_tgid, eventPacket_loadW_nlmsg_pid,
             eventPacket_loadH_nlmsg_type, eventPacket_loadW_idx,
             eventPacket_loadW_val, eventPacket_loadW_what,
             eventPacket_loadW_pid, eventPacket_loadW_tgid, bswap32_exec,
             bswap32_exit, hpt, hpt'])
    · have hne2 : ¬ bswap32 w = 33554432 := fun h =>
        hw2 (bswap32_inj w PROCESS_EVENT_EXEC hw (by decide)
          (h.trans bswap32_exec.symm))
      have hne8 : ¬ bswap32 w = 128 := fun h =>
        hw8 (bswap32_inj w PROCESS_EVENT_EXIT hw (by decide)
          (h.trans bswap32_exit.symm))
      simp only [runFilter, procFilterLen]
      iterate
        (unfold bpfRun;
         simp [procFilter, bpf_stmt, bpf_jump, bpf_code_ld_w_abs,
           bpf_code_ld_h_abs, bpf_code_ldx_w_mem, bpf_code_jmp_jeq_k,
           bpf_code_jmp_jeq_x, bpf_code_ret_k, BPF_ST, u16_to_be_done,
           u32_to_be_idx, u32_to_be_val, u32_to_be_exec, u32_to_be_exit,
           nlmsg_length_zero, offset_nlmsghdr_nlmsg_pid,
           offset_nlmsghdr_nlmsg_type, offset_cn_msg_id, offset_cb_id_idx,
           offset_cb_id_val, offset_cn_msg_data, offset_proc_event_what,
           offset_proc_event_event_data, offset_event_process_pid,
           offset_event_process_tgid, eventPacket_loadW_nlmsg_pid,
           eventPacket_loadH_nlmsg_type, eventPacket_loadW_idx,
           eventPacket_loadW_val, eventPacket_loadW_what,
           eventPacket_loadW_pid, eventPacket_loadW_tgid, bswap32_exec,
           bswap32_exit, hne2, hne8, hw2, hw8])

/-- C1: running the filter program built by `install_filter` on a
synthetic "started" (exec) event record that passes the kernel-origin,
single-segment and process-connector classifier checks yields accept
(`0xffffffff`) exactly when the record's process id equals its
thread-group id, and reject (`0`) when they differ; the same holds for
"ended" (exit) records; and a record of any other kind is rejected
regardless of the id fields. -/
theorem install_filter_decision (p t w : Nat) (hp : p < 4294967296)
    (ht : t < 4294967296) (hw : w < 4294967296) :
    (runFilter (eventPacket PROCESS_EVENT_EXEC p t) = some 4294967295 ↔
      p = t) ∧
    (p ≠ t → runFilter (eventPacket PROCESS_EVENT_EXEC p t) = some 0) ∧
    (runFilter (eventPacket PROCESS_EVENT_EXIT p t) = some 4294967295 ↔
      p = t) ∧
    (p ≠ t → runFilter (eventPacket PROCESS_EVENT_EXIT p t) = some 0) ∧
    (w ≠ PROCESS_EVENT_EXEC → w ≠ PROCESS_EVENT_EXIT →
      runFilter (eventPacket w p t) = some 0) := by
  have key : bswap32 p = bswap32 t ↔ p = t :=
    ⟨fun h => bswap32_inj p t hp ht h, fun h => by rw [h]⟩
  have h1 := runFilter_eventPacket PROCESS_EVENT_EXEC p t (by decide)
  have h2 := runFilter_eventPacket PROCESS_EVENT_EXIT p t (by decide)
  have h3 := runFilter_eventPacket w p t hw
  simp only [key] at h1 h2 h3
  refine ⟨?_, ?_, ?_, ?_, ?_⟩
  · rw [h1]; by_cases h : p = t <;> simp [h]
  · intro h; rw [h1]; simp [h]
  · rw [h2]; by_cases h : p = t <;> simp [h]
  · intro h; rw [h2]; simp [h]
  · intro hne hne'; rw [h3]; simp [hne, hne']

/-- Closed instance of `install_filter_decision`: a "started" record
with process id 4242 and thread-group id 4242 is accepted; with
thread-group id 17 it is rejected; an "ended" record with both ids 4242
is accepted; a record of unknown kind 7 is rejected. -/
theorem install_filter_decision_witness :
    runFilter (eventPacket PROCESS_EVENT_EXEC 4242 4242) =
      some 4294967295 ∧
    runFilter (eventPacket PROCESS_EVENT_EXEC 4242 17) = some 0 ∧
    runFilter (eventPacket PROCESS_EVENT_EXIT 4242 4242) =
      some 4294967295 ∧
    runFilter (eventPacket 7 4242 17) = some 0 := by
  have h1 := install_filter_decision 4242 4242 7 (by decide) (by decide)
    (by decide)
  have h2 := install_filter_decision 4242 17 7 (by decide) (by decide)
    (by decide)
  exact ⟨h1.1.mpr rfl, h2.2.1 (by decide), h1.2.2.1.mpr rfl,
    h2.2.2.2.2 (by decide) (by decide)⟩

/- ## Control datagrams (src/io/connector.rs, subscribe_to_proc_events)

`subscribe_to_proc_events` zero-initialises a buffer of
`nlmsg_length(size_of::<cn_msg>() + size_of::<proc_cn_mcast_op>())`
bytes and fills: `nlmsg_pid = 0`, `nlmsg_type = NLMSG_DONE`,
`nlmsg_len = MSG_SIZE`, the classifier pair `id.idx = CN_IDX_PROC`,
`id.val = CN_VAL_PROC`, the inner payload length
`len = size_of::<proc_cn_mcast_op>()`, and the operation value
`PROC_CN_MCAST_LISTEN` or `PROC_CN_MCAST_IGNORE`.  All fields are
little-endian (host order on the target). -/

/-- The control datagram size `MSG_SIZE` from
`subscribe_to_proc_events` (40 bytes). -/
def CTRL_MSG_SIZE : Nat :=
  nlmsg_length (sizeof_cn_msg + sizeof_proc_cn_mcast_op)

/-- Byte `off` of the control datagram built by
`subscribe_to_proc_events subscribe`. -/
def ctrlMsg (subscribe : Bool) : Nat → Nat := fun off =>
  if off < 4 then byteOfLE CTRL_MSG_SIZE off
  else if off < 6 then byteOfLE NLMSG_DONE (off - 4)
  else if off < nlmsg_length 0 then 0
  else if off < nlmsg_length 0 + 4 then
    byteOfLE CN_IDX_PROC (off - nlmsg_length 0)
  else if off < nlmsg_length 0 + 8 then
    byteOfLE CN_VAL_PROC (off - (nlmsg_length 0 + 4))
  else if off < nlmsg_length 0 + offset_cn_msg_len then 0
  else if off < nlmsg_length 0 + offset_cn_msg_len + 2 then
    byteOfLE sizeof_proc_cn_mcast_op (off - (nlmsg_length 0 + offset_cn_msg_len))
  else if off < nlmsg_length 0 + offset_cn_msg_data then 0
  else if off < nlmsg_length 0 + offset_cn_msg_data + 4 then
    byteOfLE (if subscribe then PROC_CN_MCAST_LISTEN else PROC_CN_MCAST_IGNORE)
      (off - (nlmsg_length 0 + offset_cn_msg_data))
  else 0

/-- Little-endian 32-bit load from a byte buffer (a host-order field
read on the little-endian target). -/
def loadLE32 (buf : Nat → Nat) (off : Nat) : Nat :=
  buf off + buf (off + 1) * 256 + buf (off + 2) * 65536 +
    buf (off + 3) * 16777216

/-- Little-endian 16-bit load from a byte buffer. -/
def loadLE16 (buf : Nat → Nat) (off : Nat) : Nat :=
  buf off + buf (off + 1) * 256

/-- Decode the inner classifier index of a control datagram. -/
def ctrlIdx (buf : Nat → Nat) : Nat :=
  loadLE32 buf (nlmsg_length 0 + offset_cn_msg_id + offset_cb_id_idx)

/-- Decode the inner classifier value of a control datagram. -/
def ctrlVal (buf : Nat → Nat) : Nat :=
  loadLE32 buf (nlmsg_length 0 + offset_cn_msg_id + offset_cb_id_val)

/-- Decode the operation value (the `proc_cn_mcast_op` payload) of a
control datagram. -/
def ctrlOp (buf : Nat → Nat) : Nat :=
  loadLE32 buf (nlmsg_length 0 + offset_cn_msg_data)

/-- The first (least significant) byte of a control datagram's
payload. -/
def ctrlOpByte (buf : Nat → Nat) : Nat :=
  buf (nlmsg_length 0 + offset_cn_msg_data)

/-- Decode the inner payload-length field of a control datagram. -/
def ctrlPayloadLen (buf : Nat → Nat) : Nat :=
  loadLE16 buf (nlmsg_length 0 + offset_cn_msg_len)

/- ## Theorems for claims C3 and C8 -/

/-- C3 counterexample: the claim says the control-datagram payload is a
single operation byte whose value is 0 when unsubscribing.  The
unsubscribe datagram actually carries the `PROC_CN_MCAST_IGNORE`
operation, value 2 — its payload byte is 2, not 0 — and the payload is a
4-byte operation value (`cn_msg.len` is 4), not a single byte. -/
theorem ctrl_unsubscribe_op_not_zero :
    ctrlOpByte (ctrlMsg false) = 2 ∧ ctrlOpByte (ctrlMsg false) ≠ 0 ∧
      ctrlPayloadLen (ctrlMsg false) = 4 := by
  decide

/-- C3 (amended): the payload of a control datagram built by
`subscribe_to_proc_events` is a single 4-byte operation value
(`cn_msg.len = size_of::<proc_cn_mcast_op>() = 4`): the
`PROC_CN_MCAST_LISTEN` operation (1) when subscribing and the
`PROC_CN_MCAST_IGNORE` operation (2) when unsubscribing; its least
significant byte is 1 resp. 2 and the remaining payload bytes are 0. -/
theorem ctrl_op_payload_spec :
    ctrlOp (ctrlMsg true) = PROC_CN_MCAST_LISTEN ∧
    ctrlOp (ctrlMsg false) = PROC_CN_MCAST_IGNORE ∧
    ctrlOpByte (ctrlMsg true) = 1 ∧
    ctrlPayloadLen (ctrlMsg true) = sizeof_proc_cn_mcast_op ∧
    ctrlPayloadLen (ctrlMsg false) = sizeof_proc_cn_mcast_op := by
  decide

/-- C8: building a subscribe control datagram and decoding its inner
classifier pair and operation yields `(CN_IDX_PROC, CN_VAL_PROC)` with
the listen operation; an unsubscribe datagram yields the same classifier
pair with the ignore operation. -/
theorem ctrl_roundtrip :
    (ctrlIdx (ctrlMsg true) = CN_IDX_PROC ∧
      ctrlVal (ctrlMsg true) = CN_VAL_PROC ∧
      ctrlOp (ctrlMsg true) = PROC_CN_MCAST_LISTEN) ∧
    (ctrlIdx (ctrlMsg false) = CN_IDX_PROC ∧
      ctrlVal (ctrlMsg false) = CN_VAL_PROC ∧
      ctrlOp (ctrlMsg false) = PROC_CN_MCAST_IGNORE) := by
  decide

/- ## Event pull (src/io/connector.rs, Iter::next) -/

/-- The two error conditions `Iter::next` distinguishes: the would-block
or timed-out condition (`io::ErrorKind::WouldBlock`; on Linux the
`SO_RCVTIMEO` receive timeout surfaces as `EAGAIN`, which maps to this
kind), and every other I/O error kind. -/
inductive IoErrKind
  | wouldBlock
  | other
deriving DecidableEq

/-- An I/O error: its kind plus an opaque code distinguishing
errors. -/
structure IoErr where
  kind : IoErrKind
  code : Nat
deriving DecidableEq

/-- The decoded event values (`PEvent` from `solver/domain.rs`):
`Exec(pid)` for a started process, `Exit(pid)` for an ended one. -/
inductive PEvent
  | exec (pid : Nat)
  | exit (pid : Nat)
deriving DecidableEq

/-- Embeds one call of `Iter::next` given the outcome of the single
receive it issues: on a would-block error, no event this call (`none`);
on any other error, that error as a failed item; on success, decode the
buffer's `what` field and yield the decoded event, or no event when the
kind matches neither known variant. -/
def iterNext (recv : Except IoErr (Nat → Nat)) :
    Option (Except IoErr PEvent) :=
  match recv with
  | .error e =>
    match e.kind with
    | .wouldBlock => none
    | .other => some (.error e)
  | .ok buf =>
    let what := loadLE32 buf
      (nlmsg_length 0 + offset_cn_msg_data + offset_proc_event_what)
    if what = PROCESS_EVENT_EXEC then
      some (.ok (.exec (loadLE32 buf
        (nlmsg_length 0 + offset_cn_msg_data + offset_proc_event_event_data +
          offset_event_process_pid))))
    else if what = PROCESS_EVENT_EXIT then
      some (.ok (.exit (loadLE32 buf
        (nlmsg_length 0 + offset_cn_msg_data + offset_proc_event_event_data +
          offset_event_process_pid))))
    else none

/- Little-endian load lemmas for the decoder on a synthetic event
datagram. -/

lemma loadLE32_eventPacket_what (w p t : Nat) (hw : w < 4294967296) :
    loadLE32 (eventPacket w p t) 36 = w := by
  simp [loadLE32, eventPacket, byteOfLE, nlmsg_length_zero,
    offset_nlmsghdr_nlmsg_type, offset_cn_msg_id, offset_cb_id_idx,
    offset_cb_id_val, offset_cn_msg_data, offset_proc_event_what,
    offset_proc_event_event_data, offset_event_process_pid,
    offset_event_process_tgid]
  omega

lemma loadLE32_eventPacket_pid (w p t : Nat) (hp : p < 4294967296) :
    loadLE32 (eventPacket w p t) 52 = p := by
  simp [loadLE32, eventPacket, byteOfLE, nlmsg_length_zero,
    offset_nlmsghdr_nlmsg_type, offset_cn_msg_id, offset_cb_id_idx,
    offset_cb_id_val, offset_cn_msg_data, offset_proc_event_what,
    offset_proc_event_event_data, offset_event_process_pid,
    offset_event_process_tgid]
  omega

/- ## Theorems for claims C6 and C7 -/

/-- C6: each `Iter::next` call issues one receive (the model's single
receive outcome); a would-block / timed-out failure yields no event this
call rather than an error; any other receive failure is yielded as a
failed item; a successful receive is decoded, yielding the decoded event
for the exec and exit kinds and no event when the kind matches neither
variant. -/
theorem iter_next_cases (e : IoErr) (buf : Nat → Nat) :
    (e.kind = IoErrKind.wouldBlock → iterNext (.error e) = none) ∧
    (e.kind ≠ IoErrKind.wouldBlock →
      iterNext (.error e) = some (.error e)) ∧
    (loadLE32 buf
        (nlmsg_length 0 + offset_cn_msg_data + offset_proc_event_what) =
        PROCESS_EVENT_EXEC →
      iterNext (.ok buf) = some (.ok (.exec (loadLE32 buf
        (nlmsg_length 0 + offset_cn_msg_data + offset_proc_event_event_data +
          offset_event_process_pid))))) ∧
    (loadLE32 buf
        (nlmsg_length 0 + offset_cn_msg_data + offset_proc_event_what) =
        PROCESS_EVENT_EXIT →
      iterNext (.ok buf) = some (.ok (.exit (loadLE32 buf
        (nlmsg_length 0 + offset_cn_msg_data + offset_proc_event_event_data +
          offset_event_process_pid))))) ∧
    (loadLE32 buf
        (nlmsg_length 0 + offset_cn_msg_data + offset_proc_event_what) ≠
        PROCESS_EVENT_EXEC →
      loadLE32 buf
        (nlmsg_length 0 + offset_cn_msg_data + offset_proc_event_what) ≠
        PROCESS_EVENT_EXIT →
      iterNext (.ok buf) = none) := by
  refine ⟨?_, ?_, ?_, ?_, ?_⟩
  · intro h; simp [iterNext, h]
  · intro h
    rcases e with ⟨k, c⟩
    cases k
    · simp at h
    · simp [iterNext]
  · intro h; simp [iterNext, h]
  · intro h
    have h' : ¬ loadLE32 buf
        (nlmsg_length 0 + offset_cn_msg_data + offset_proc_event_what) =
        PROCESS_EVENT_EXEC := by
      rw [h]; decide
    simp [iterNext, h, h']
    decide
  · intro h h'; simp [iterNext, h, h']

/-- Closed instance of `iter_next_cases`: a would-block error yields no
event, another error is yielded as a failed item, and an all-zero buffer
(kind 0, neither exec nor exit) yields no event. -/
theorem iter_next_cases_witness :
    iterNext (.error ⟨IoErrKind.wouldBlock, 0⟩) = none ∧
    iterNext (.error ⟨IoErrKind.other, 5⟩) =
      some (.error ⟨IoErrKind.other, 5⟩) ∧
    iterNext (.ok (fun _ => 0)) = none := by
  refine ⟨?_, ?_, ?_⟩
  · exact (iter_next_cases ⟨IoErrKind.wouldBlock, 0⟩ (fun _ => 0)).1 rfl
  · exact (iter_next_cases ⟨IoErrKind.other, 5⟩ (fun _ => 0)).2.1
      (by decide)
  · exact (iter_next_cases ⟨IoErrKind.other, 5⟩ (fun _ => 0)).2.2.2.2
      (by decide) (by decide)

/-- C7: a synthetic "started" event datagram with process id `p` decodes
to `Exec p` whatever its thread-group id field holds — the decoder does
not re-check thread-group leadership. -/
theorem decode_started_ignores_tgid (p t : Nat) (hp : p < 4294967296) :
    iterNext (.ok (eventPacket PROCESS_EVENT_EXEC p t)) =
      some (.ok (.exec p)) := by
  have hwhat := loadLE32_eventPacket_what PROCESS_EVENT_EXEC p t (by decide)
  have hpid := loadLE32_eventPacket_pid PROCESS_EVENT_EXEC p t hp
  simp only [iterNext, nlmsg_length_zero, offset_cn_msg_data,
    offset_proc_event_what, offset_proc_event_event_data,
    offset_event_process_pid]
  norm_num [hwhat, hpid]

/-- Closed instance of `decode_started_ignores_tgid`: process id 4242
with thread-group id 4242, and process id 4242 with thread-group id 17,
both decode to `Exec 4242`. -/
theorem decode_started_ignores_tgid_witness :
    iterNext (.ok (eventPacket PROCESS_EVENT_EXEC 4242 4242)) =
      some (.ok (.exec 4242)) ∧
    iterNext (.ok (eventPacket PROCESS_EVENT_EXEC 4242 17)) =
      some (.ok (.exec 4242)) :=
  ⟨decode_started_ignores_tgid 4242 4242 (by decide),
    decode_started_ignores_tgid 4242 17 (by decide)⟩

/- ## Channel Handle (src/io/socket.rs) -/

/-- Embeds the `ffi_call!` macro: a raw libc result of `-1` becomes the
last OS error, any other value is returned as the success value. -/
def ffi_call (result : Int) (osError : IoErr) : Except IoErr Int :=
  if result = -1 then .error osError else .ok result

/-- Embeds `Socket::receive`: one `recv` call through `ffi_call!`, its
success value mapped to `()` (`.map(|_| ())` in the source). -/
def socketReceive (result : Int) (osError : IoErr) : Except IoErr Unit :=
  (ffi_call result osError).map (fun _ => ())

/- ## Theorems for claim C9 -/

/-- C9 counterexample: the claim says `Socket::receive` returns, on
success, the number of bytes written into the caller's buffer.  The
source maps every successful `recv` result to the unit value, so two
receives of different byte counts (5 and 7) return the same value,
`Ok(())`: the byte count is discarded and is not recoverable from the
return value. -/
theorem socket_receive_discards_count :
    socketReceive 5 ⟨IoErrKind.other, 0⟩ = .ok () ∧
    socketReceive 7 ⟨IoErrKind.other, 0⟩ = .ok () ∧
    socketReceive 5 ⟨IoErrKind.other, 0⟩ =
      socketReceive 7 ⟨IoErrKind.other, 0⟩ :=
  ⟨rfl, rfl, rfl⟩

/-- C9 (amended): `Socket::receive` returns `Ok(())` on success — the
received byte count is discarded — and otherwise the underlying I/O
failure (raw result `-1`), from which the caller distinguishes the
would-block / timed-out condition by the error's kind. -/
theorem socket_receive_spec (result : Int) (e : IoErr) :
    (result = -1 → socketReceive result e = .error e) ∧
    (result ≠ -1 → socketReceive result e = .ok ()) := by
  constructor
  · intro h; simp [socketReceive, ffi_call, h, Except.map]
  · intro h; simp [socketReceive, ffi_call, h, Except.map]

/-- Closed instance of `socket_receive_spec`: raw result `-1` surfaces
the OS error; raw result `3` succeeds with `()`. -/
theorem socket_receive_spec_witness :
    socketReceive (-1) ⟨IoErrKind.wouldBlock, 0⟩ =
      .error ⟨IoErrKind.wouldBlock, 0⟩ ∧
    socketReceive 3 ⟨IoErrKind.wouldBlock, 0⟩ = .ok () :=
  ⟨(socket_receive_spec (-1) ⟨IoErrKind.wouldBlock, 0⟩).1 rfl,
    (socket_receive_spec 3 ⟨IoErrKind.wouldBlock, 0⟩).2 (by decide)⟩

/- ## Process-Events Connector construction
     (src/io/connector.rs, try_new)

`try_new` opens the netlink socket, then chains
`timeout(3s)?`, `install_filter()?`, `bind()?` and
`subscribe_to_proc_events(true)?`.  Each step runs only if every
previous step succeeded; the first failure propagates as the returned
error.  After the socket exists, any failure drops the partially-built
connector: `ProcessEventsConnector::drop` sends the unsubscribe (ignore)
datagram and `Socket::drop` closes the raw handle, so no connector value
escapes.  The model maps each socket call to an action and each step's
outcome to an oracle field. -/

/-- The socket actions `try_new` can perform, in order of the
pipeline: open the channel, set the receive timeout (with its `tv_sec`
value), attach the filter program, bind to the multicast group, send the
listen (subscribe) datagram; plus the two teardown actions the drops
perform: send the ignore (unsubscribe) datagram and close the
handle. -/
inductive SockAction
  | openSock
  | setTimeout (tvSec : Nat)
  | attachFilter
  | bindSock
  | sendListen
  | sendIgnore
  | closeSock
deriving DecidableEq

/-- The outcome environment for one `try_new` run: the error each
pipeline step would fail with, or `none` if that step would succeed. -/
structure SetupEnv where
  openRes : Option IoErr
  timeoutRes : Option IoErr
  filterRes : Option IoErr
  bindRes : Option IoErr
  sendRes : Option IoErr

/-- Embeds the clamp in `ProcessEventsConnector::timeout`:
`duration.as_secs().clamp(0, i64::MAX as u64) as i64`. -/
def clampTvSec (secs : Nat) : Nat := min secs 9223372036854775807

/-- The actions the two `Drop` implementations perform when a
partially-built connector is released: send the unsubscribe (ignore)
datagram, then close the socket. -/
def dropActions : List SockAction := [.sendIgnore, .closeSock]

/-- Embeds `ProcessEventsConnector::try_new` over an outcome
environment: the construction result paired with the trace of socket
actions performed, in order. -/
def tryNew (env : SetupEnv) : Except IoErr Unit × List SockAction :=
  match env.openRes with
  | some e => (.error e, [.openSock])
  | none =>
    match env.timeoutRes with
    | some e =>
      (.error e, [.openSock, .setTimeout (clampTvSec 3)] ++ dropActions)
    | none =>
      match env.filterRes with
      | some e =>
        (.error e,
          [.openSock, .setTimeout (clampTvSec 3), .attachFilter] ++
            dropActions)
      | none =>
        match env.bindRes with
        | some e =>
          (.error e,
            [.openSock, .setTimeout (clampTvSec 3), .attachFilter,
              .bindSock] ++ dropActions)
        | none =>
          match env.sendRes with
          | some e =>
            (.error e,
              [.openSock, .setTimeout (clampTvSec 3), .attachFilter,
                .bindSock, .sendListen] ++ dropActions)
          | none =>
            (.ok (),
              [.openSock, .setTimeout (clampTvSec 3), .attachFilter,
                .bindSock, .sendListen])

/- ## Theorems for claim C5 -/

/-- C5: `try_new` performs open → set 3-second timeout → install filter
→ bind → send subscribe, in that order; each step is attempted only if
all previous steps succeeded; construction succeeds exactly when every
step succeeds, and then the trace is exactly the five pipeline steps
with the fixed 3-second timeout; on any failure the returned value is
the first failing step's I/O error (no connector escapes), and once the
channel was opened the partially-built handle is released (the trace
ends with the unsubscribe-and-close teardown). -/
theorem try_new_pipeline (env : SetupEnv) :
    ((tryNew env).1 = .ok () ↔
      env.openRes = none ∧ env.timeoutRes = none ∧ env.filterRes = none ∧
        env.bindRes = none ∧ env.sendRes = none) ∧
    ((tryNew env).1 = .ok () →
      (tryNew env).2 = [.openSock, .setTimeout 3, .attachFilter, .bindSock,
        .sendListen]) ∧
    (SockAction.setTimeout (clampTvSec 3) ∈ (tryNew env).2 →
      env.openRes = none) ∧
    (SockAction.attachFilter ∈ (tryNew env).2 →
      env.openRes = none ∧ env.timeoutRes = none) ∧
    (SockAction.bindSock ∈ (tryNew env).2 →
      env.openRes = none ∧ env.timeoutRes = none ∧
        env.filterRes = none) ∧
    (SockAction.sendListen ∈ (tryNew env).2 →
      env.openRes = none ∧ env.timeoutRes = none ∧ env.filterRes = none ∧
        env.bindRes = none) ∧
    (∀ e, (tryNew env).1 = .error e →
      (env.openRes = some e ∨
        (env.openRes = none ∧ env.timeoutRes = some e) ∨
        (env.openRes = none ∧ env.timeoutRes = none ∧
          env.filterRes = some e) ∨
        (env.openRes = none ∧ env.timeoutRes = none ∧
          env.filterRes = none ∧ env.bindRes = some e) ∨
        (env.openRes = none ∧ env.timeoutRes = none ∧
          env.filterRes = none ∧ env.bindRes = none ∧
          env.sendRes = some e))) ∧
    (∀ e, (tryNew env).1 = .error e →
      env.openRes = some e ∨ SockAction.closeSock ∈ (tryNew env).2) := by
  obtain ⟨o, tm, f, b, s⟩ := env
  cases o <;> cases tm <;> cases f <;> cases b <;> cases s <;>
    simp [tryNew, dropActions, clampTvSec]

/-- Closed instance of `try_new_pipeline`: with every step succeeding,
construction succeeds and the trace is the five pipeline steps in order
with the 3-second timeout; with a bind failure, that error is returned
and the teardown close appears in the trace. -/
theorem try_new_pipeline_witness :
    (tryNew ⟨none, none, none, none, none⟩).1 = .ok () ∧
    (tryNew ⟨none, none, none, none, none⟩).2 =
      [.openSock, .setTimeout 3, .attachFilter, .bindSock, .sendListen] ∧
    (SockAction.closeSock ∈
      (tryNew ⟨none, none, none, some ⟨IoErrKind.other, 9⟩, none⟩).2) := by
  refine ⟨?_, ?_, ?_⟩
  · exact (try_new_pipeline ⟨none, none, none, none, none⟩).1.mpr
      ⟨rfl, rfl, rfl, rfl, rfl⟩
  · exact (try_new_pipeline ⟨none, none, none, none, none⟩).2.1
      ((try_new_pipeline ⟨none, none, none, none, none⟩).1.mpr
        ⟨rfl, rfl, rfl, rfl, rfl⟩)
  · have h := (try_new_pipeline
      ⟨none, none, none, some ⟨IoErrKind.other, 9⟩, none⟩).2.2.2.2.2.2.2
      ⟨IoErrKind.other, 9⟩ rfl
    rcases h with h | h
    · exact absurd h (by decide)
    · exact h

/- ## Shim-resolution workflow (src/solver/workflow.rs)

`OsString` values are modelled as `String`; the command line as
`List String`. -/

/-- Embeds `wine_executables`: the six wine loader executable names. -/
def wine_executables : List String :=
  ["wine-preloader", "wine64-preloader", "wine", "wine64", "wineloader",
    "wineloader64"]

/-- ASCII lower-casing of one character, as in Rust's
`eq_ignore_ascii_case`. -/
def asciiLowerChar (c : Char) : Char :=
  if 'A' ≤ c && c ≤ 'Z' then Char.ofNat (c.toNat + 32) else c

/-- Embeds `str::eq_ignore_ascii_case`. -/
def eqIgnoreAsciiCase (a b : String) : Bool :=
  a.data.map asciiLowerChar == b.data.map asciiLowerChar

/-- Embeds `Path::file_name` for the paths this workflow sees: the last
non-empty path component, skipping `.` components, and `none` when the
path ends in `..` or has no component. -/
def path_file_name (s : String) : Option String :=
  match ((s.split (fun c => c == '/')).filter
      (fun c => !(c == "" || c == "."))).getLast? with
  | some c => if c == ".." then none else some c
  | none => none

/-- Embeds `is_wine_executable`: the command is an absolute path whose
file name is one of the wine loader names. -/
def is_wine_executable (cmd : String) : Bool :=
  cmd.startsWith "/" && (path_file_name cmd).isSome &&
    wine_executables.contains ((path_file_name cmd).getD "")

/-- Embeds `get_wine_exe_from_path`: take the last component of the
command after splitting on `\` and `/`, and return it when its last
`.`-separated piece is `exe` (ASCII case insensitive). -/
def get_wine_exe_from_path (cmd : String) : Option String :=
  match (cmd.split (fun c => c == '\\' || c == '/')).getLast? with
  | some app_name =>
    match (app_name.split (fun c => c == '.')).getLast? with
    | some ext =>
      if eqIgnoreAsciiCase ext "exe" then some app_name else none
    | none => none
  | none => none

/-- Embeds `wine_executed_file_name`: skip the leading wine-loader
commands, take the next command, and extract the Windows executable name
from it. -/
def wine_executed_file_name (cmdline : List String) : Option String :=
  (((cmdline.dropWhile (fun c => is_wine_executable c)).take 1).filterMap
    get_wine_exe_from_path).getLast?

/-- Embeds `get_process_executed_file`: for a wine loader process whose
command line names a Windows executable, that executable's name;
otherwise the process's own executable name.  (`List::contains` is
membership.) -/
def get_process_executed_file (pexe : String) (cmdline : List String) :
    String :=
  if pexe ∈ wine_executables then
    match wine_executed_file_name cmdline with
    | some name => name
    | none => pexe
  else pexe

/- ## Theorems for claim C10 -/

/-- C10: for every executable name that is not one of the six wine
loader names, `get_process_executed_file` returns that name unchanged,
whatever the command line. -/
theorem get_process_executed_file_non_wine (pexe : String)
    (cmdline : List String) (h : pexe ∉ wine_executables) :
    get_process_executed_file pexe cmdline = pexe := by
  simp [get_process_executed_file, h]

/-- Closed instance of `get_process_executed_file_non_wine`: `cat` is
returned unchanged. -/
theorem get_process_executed_file_non_wine_witness :
    get_process_executed_file "cat" ["/usr/bin/cat", "test.log"] =
      "cat" :=
  get_process_executed_file_non_wine "cat" ["/usr/bin/cat", "test.log"]
    (by decide)
